import Mathlib

/-!
Verification of the channel-liveness probing subsystem of acestream-scraper
(v2 backend).  The definitions below are a shallow embedding of:

 * `app/services/channel_status_service.py` (`ChannelStatusService`):
   `check_channel_status`, `check_multiple_channels`, `get_channel_status_summary`;
 * `app/repositories/channel_repository.py` (`ChannelRepository`):
   `update_channel_status`, `get_channels`, `get_channel_by_id`;
 * `app/api/endpoints/channels.py`:
   `check_all_channels_status`, `check_acestream_channel_status`.

Modelling conventions:
 * Time is a `Nat` counting minutes since an epoch; `datetime.utcnow()` becomes
   an explicit `now` parameter, and `replace(hour=0, minute=0, second=0,
   microsecond=0)` becomes flooring to a multiple of 1440 (minutes per day).
 * The upstream aiohttp call is modelled by an `Upstream` value describing what
   the network produced (timeout / transport exception / HTTP response whose
   body either fails to parse as JSON or parses to a `Json` value).
 * The database session is a `List Channel`; `commit` either succeeds and
   updates the list, or raises.  Persistence failures are injected by a
   function `pb : Nat → Option String` giving, for the n-th persistence
   attempt of one probe, `none` (success) or `some msg` (the repository call
   raises an exception rendering as `msg`).
 * Python exception flow is made explicit: the service's outer
   `try/except asyncio.TimeoutError/except Exception` and the inner
   `try/except Exception` (around `response.json()` and the dict inspection)
   are encoded by the `...Handler` functions below; an exception raised inside
   an `except` block propagates to the next enclosing handler, or out of the
   function (`Except.error`).
 * Python floats are modelled as `ℚ`; `round(x, 1)` is modelled as exact
   rational rounding at one decimal with ties to even, which is what Python's
   `round` computes whenever the value is exactly representable.
-/

namespace AceScraper

/-- The three values the code stores in the `status` field of an outcome
dict: `online`, `offline` (both produced by `check_channel_status`) and
`error` (produced by the task-exception wrapper in
`check_multiple_channels`). -/
inductive StatusTag where
  | online
  | offline
  | error
deriving DecidableEq, Repr

/-- One probe outcome dict as built by `check_channel_status` /
`check_with_semaphore` (fields `channel_id`, `is_online`, `status`,
`message`, `last_checked`, `error`). -/
structure Outcome where
  channel_id : String
  is_online : Bool
  status : StatusTag
  message : String
  last_checked : Nat
  error : Option String
deriving DecidableEq, Repr

/-- A row of the `acestream_channels` table, with the columns the probing
subsystem reads and writes (the ORM model file is outside the probing
subsystem; the fields are those used by `channel_repository.py` and
`channel_status_service.py`: `id`, `name`, `is_active`, `is_online`,
`last_checked`, `check_error`; the boolean columns are nullable). -/
structure Channel where
  id : String
  name : String
  is_active : Option Bool
  is_online : Option Bool
  last_checked : Option Nat
  check_error : Option String
deriving DecidableEq, Repr

/-- A JSON value, as produced by `await response.json()`. -/
inductive Json where
  | null
  | bool (b : Bool)
  | num (n : Int)
  | str (s : String)
  | list (xs : List Json)
  | dict (entries : List (String × Json))

/-- Python truthiness of a decoded JSON value (`if error:`,
`if response_data:`). -/
def Json.truthy : Json → Bool
  | .null => false
  | .bool b => b
  | .num n => n != 0
  | .str s => !s.isEmpty
  | .list xs => !xs.isEmpty
  | .dict es => !es.isEmpty

/-- Python `x is None` for a decoded JSON value (JSON `null` decodes to Python
`None`, and an absent key is read back as `None` as well). -/
def Json.isNone : Json → Bool
  | .null => true
  | _ => false

/-- Python `x == 1` for a decoded JSON value (`response_data.get('is_live')
== 1`); note Python's `True == 1`. -/
def Json.eqOne : Json → Bool
  | .num n => n == 1
  | .bool b => b
  | _ => false

mutual

/-- Python `str(x)` of a decoded JSON value.  Scalars are rendered exactly
as Python renders them; for containers we keep the bracket structure and the
embedded scalar texts but do not reproduce Python quoting/spacing of `repr`,
which no code path of the service depends on beyond substring search. -/
def pyStr : Json → String
  | .null => "None"
  | .bool true => "True"
  | .bool false => "False"
  | .num n => toString n
  | .str s => s
  | .list [] => "[]"
  | .list (x :: xs) => "[" ++ pyStr x ++ pyStrListTail xs ++ "]"
  | .dict [] => "\x7b\x7d"
  | .dict ((k, v) :: es) => "\x7b" ++ k ++ ": " ++ pyStr v ++ pyStrDictTail es ++ "\x7d"

/-- Renders the remaining elements of a JSON array, comma-separated. -/
def pyStrListTail : List Json → String
  | [] => ""
  | x :: xs => ", " ++ pyStr x ++ pyStrListTail xs

/-- Renders the remaining entries of a JSON object, comma-separated. -/
def pyStrDictTail : List (String × Json) → String
  | [] => ""
  | (k, v) :: es => ", " ++ k ++ ": " ++ pyStr v ++ pyStrDictTail es

end

/-- Does the character list start with the given needle? -/
def listStartsWith : List Char → List Char → Bool
  | [], _ => true
  | _ :: _, [] => false
  | a :: as, b :: bs => a == b && listStartsWith as bs

/-- Does the character list contain the needle as a contiguous run? -/
def listContainsSeq (needle : List Char) : List Char → Bool
  | [] => needle.isEmpty
  | c :: cs => listStartsWith needle (c :: cs) || listContainsSeq needle cs

/-- Python `needle in hay` on strings. -/
def strContainsSub (hay needle : String) : Bool :=
  listContainsSeq needle.data hay.data

/-- Python `s.lower()` (per-character ASCII lowering, which covers the
literals the service compares against). -/
def strLower (s : String) : String :=
  String.mk (s.data.map Char.toLower)

/-- Python `d.get(k, default)` on a decoded JSON object given as its entry
list. -/
def dictGetD (es : List (String × Json)) (k : String) (d : Json) : Json :=
  match es.find? (fun p => p.1 == k) with
  | some p => p.2
  | none => d

/-- What the network produced for one probe request
(`session.get(status_url, ...)` in `check_channel_status`):
a timeout (`asyncio.TimeoutError`), some other transport exception rendering
as `msg`, or an HTTP response with a status code and a body that either fails
JSON decoding (`await response.json()` raises, rendering as `detail`) or
decodes to a `Json` value. -/
inductive BodyParse where
  | parseFail (detail : String)
  | parsed (data : Json)

/-- See `BodyParse`. -/
inductive Upstream where
  | timeout
  | transportError (msg : String)
  | httpResp (status : Nat) (body : BodyParse)

/-- One attempted call to
`ChannelRepository.update_channel_status(channel_id, is_online, error)`,
recorded with its arguments (whether or not the call then raised). -/
structure PersistCall where
  channel_id : String
  is_online : Bool
  error : Option String
deriving DecidableEq, Repr

/-- Model of `ChannelRepository.update_channel_status`: look up the first channel with
the given id; if absent return the db unchanged (the Python returns `None`
without touching the session); otherwise set `is_online`, `last_checked` and
`check_error` on that row and commit. -/
def update_channel_status (db : List Channel) (cid : String) (onl : Bool)
    (err : Option String) (now : Nat) : List Channel :=
  match db with
  | [] => []
  | c :: cs =>
    if c.id = cid then
      { c with is_online := some onl, last_checked := some now, check_error := err } :: cs
    else
      c :: update_channel_status cs cid onl err now

/-- Model of `ChannelRepository.get_channel_by_id`: first row whose `id` column
matches. -/
def get_channel_by_id (db : List Channel) (cid : String) : Option Channel :=
  db.find? (fun c => c.id == cid)

/-- The full effect of one `check_channel_status` call: the value returned
(`Except.ok` an outcome dict) or the exception that escaped the method
(`Except.error`), the persistence calls attempted, and the database
afterwards. -/
structure ProbeRun where
  result : Except String Outcome
  calls : List PersistCall
  db : List Channel
deriving Repr

/-- An outcome dict of the shape every online return path of
`check_channel_status` builds: `is_online=True`, `status='online'`,
`error=None`. -/
def mkOnline (cid msg : String) (now : Nat) : Outcome :=
  { channel_id := cid, is_online := true, status := .online,
    message := msg, last_checked := now, error := none }

/-- An outcome dict of the shape every offline return path of
`check_channel_status` builds: `is_online=False`, `status='offline'`, and the
same text stored in `message` and `error`. -/
def mkOffline (cid msg : String) (now : Nat) : Outcome :=
  { channel_id := cid, is_online := false, status := .offline,
    message := msg, last_checked := now, error := some msg }

/-- The service's outer `except Exception as e:` handler
(channel_status_service.py lines 177-190): persist `(False, str(e))`; if that
persistence call itself raises, the exception escapes `check_channel_status`
(nothing encloses the handler); otherwise return the offline outcome dict.
`n` is the index of the next persistence attempt of this probe. -/
def outerHandler (cid e : String) (now : Nat) (pb : Nat → Option String)
    (n : Nat) (calls : List PersistCall) (db : List Channel) : ProbeRun :=
  let calls := calls ++ [⟨cid, false, some e⟩]
  match pb n with
  | some e2 => ⟨.error e2, calls, db⟩
  | none => ⟨.ok (mkOffline cid e now), calls, update_channel_status db cid false (some e) now⟩

/-- The service's `except asyncio.TimeoutError:` handler (lines 163-176):
persist `(False, "Request timeout")`; a failure of that call escapes the
method; otherwise return the offline outcome dict (note: `status` is
`'offline'`, not `'error'`). -/
def timeoutHandler (cid : String) (now : Nat) (pb : Nat → Option String)
    (n : Nat) (calls : List PersistCall) (db : List Channel) : ProbeRun :=
  let e := "Request timeout"
  let calls := calls ++ [⟨cid, false, some e⟩]
  match pb n with
  | some e2 => ⟨.error e2, calls, db⟩
  | none => ⟨.ok (mkOffline cid e now), calls, update_channel_status db cid false (some e) now⟩

/-- The service's inner `except Exception as e:` handler (lines 135-147),
covering `response.json()` and the dict inspection including the persistence
calls made there: build `"Invalid response format: " ++ e`, persist
`(False, that)`; if the persistence call raises, the exception is caught by
the outer generic handler; otherwise return the offline outcome dict. -/
def innerHandler (cid e : String) (now : Nat) (pb : Nat → Option String)
    (n : Nat) (calls : List PersistCall) (db : List Channel) : ProbeRun :=
  let msg := "Invalid response format: " ++ e
  let calls := calls ++ [⟨cid, false, some msg⟩]
  match pb n with
  | some e2 => outerHandler cid e2 now pb (n + 1) calls db
  | none => ⟨.ok (mkOffline cid msg now), calls, update_channel_status db cid false (some msg) now⟩

/-- The two online return paths of the HTTP-200 dict branch (lines 77-105),
which differ only in the message text: persist `(True, None)`, return the
online outcome dict; a persistence failure lands in the inner handler. -/
def onlineBranch (cid msg : String) (now : Nat) (pb : Nat → Option String)
    (db : List Channel) : ProbeRun :=
  let calls : List PersistCall := [⟨cid, true, none⟩]
  match pb 0 with
  | some e => innerHandler cid e now pb 1 calls db
  | none =>
    ⟨.ok (mkOnline cid msg now), calls, update_channel_status db cid true none now⟩

/-- The fall-through of the HTTP-200 dict branch (lines 107-119):
`error_msg = error if error else "Channel is not live"`, persist
`(False, str(error_msg))`, return the offline outcome dict; a persistence
failure lands in the inner handler. -/
def offlineBranch (cid : String) (error : Json) (now : Nat)
    (pb : Nat → Option String) (db : List Channel) : ProbeRun :=
  let msg := if error.truthy then pyStr error else "Channel is not live"
  let calls : List PersistCall := [⟨cid, false, some msg⟩]
  match pb 0 with
  | some e => innerHandler cid e now pb 1 calls db
  | none =>
    ⟨.ok (mkOffline cid msg now), calls,
      update_channel_status db cid false (some msg) now⟩

/-- The HTTP-200 non-dict branch (lines 121-133): persist
`(False, "Invalid response format")`, return the offline outcome dict; a
persistence failure lands in the inner handler. -/
def invalidFormatBranch (cid : String) (now : Nat) (pb : Nat → Option String)
    (db : List Channel) : ProbeRun :=
  let msg := "Invalid response format"
  let calls : List PersistCall := [⟨cid, false, some msg⟩]
  match pb 0 with
  | some e => innerHandler cid e now pb 1 calls db
  | none =>
    ⟨.ok (mkOffline cid msg now), calls,
      update_channel_status db cid false (some msg) now⟩

/-- The non-200 branch (lines 149-161): persist `(False, "HTTP {status}")`,
return the offline outcome dict; a persistence failure lands in the outer
generic handler. -/
def httpErrorBranch (cid : String) (status : Nat) (now : Nat)
    (pb : Nat → Option String) (db : List Channel) : ProbeRun :=
  let msg := "HTTP " ++ toString status
  let calls : List PersistCall := [⟨cid, false, some msg⟩]
  match pb 0 with
  | some e => outerHandler cid e now pb 1 calls db
  | none =>
    ⟨.ok (mkOffline cid msg now), calls,
      update_channel_status db cid false (some msg) now⟩

/-- Model of `ChannelStatusService.check_channel_status` (lines 37-190), for a channel
with id `cid`, given what the upstream engine did (`up`), the probe start
time `now` (= `check_time`; the repository's own `utcnow()` is identified
with it), the persistence-failure injection `pb`, and the database.

Branch structure, in source order:
 * HTTP 200, body decodes to a dict:
   - a truthy `error` whose `str(...).lower()` contains
     `"got newer download"` → persist `(True, None)`, outcome online
     `"Channel is available"`;
   - `error is None` and truthy `response` object whose `is_live == 1` →
     persist `(True, None)`, outcome online `"Channel is live"`
     (a truthy non-dict `response` value makes `.get` raise an
     AttributeError, landing in the inner handler);
   - otherwise `error_msg = error if error else "Channel is not live"`,
     persist `(False, str(error_msg))`, outcome offline;
 * HTTP 200, body not a dict: persist `(False, "Invalid response format")`,
   outcome offline;
 * HTTP 200, body fails to decode: inner handler with the decode error text;
 * non-200: persist `(False, "HTTP {status}")`, outcome offline
   (a persistence failure here lands in the outer generic handler);
 * timeout / transport exception: the corresponding handler.
A persistence failure inside the HTTP-200 dict branches is caught by the
inner handler. -/
def check_channel_status (cid : String) (up : Upstream) (now : Nat)
    (pb : Nat → Option String) (db : List Channel) : ProbeRun :=
  match up with
  | .timeout => timeoutHandler cid now pb 0 [] db
  | .transportError e => outerHandler cid e now pb 0 [] db
  | .httpResp status body =>
    if status == 200 then
      match body with
      | .parseFail detail => innerHandler cid detail now pb 0 [] db
      | .parsed data =>
        match data with
        | .dict es =>
          let response_data := dictGetD es "response" (.dict [])
          let error := dictGetD es "error" .null
          if error.truthy && strContainsSub (strLower (pyStr error)) "got newer download" then
            onlineBranch cid "Channel is available" now pb db
          else if error.isNone && response_data.truthy then
            match response_data with
            | .dict res =>
              if (dictGetD res "is_live" .null).eqOne then
                onlineBranch cid "Channel is live" now pb db
              else
                offlineBranch cid error now pb db
            | _ =>
              -- `response_data.get('is_live')` on a truthy non-dict raises
              -- an AttributeError (message text abridged in this model).
              innerHandler cid "object has no attribute get" now pb 0 [] db
          else
            offlineBranch cid error now pb db
        | _ => invalidFormatBranch cid now pb db
    else
      httpErrorBranch cid status now pb db

/-- The upstream behaviour of the engine for each channel id, and the
persistence-failure injection for each channel id, bundled for batch runs. -/
structure Env where
  upOf : String → Upstream
  pb : String → Nat → Option String

/-- Model of `check_with_semaphore` inside
`ChannelStatusService.check_multiple_channels` (lines 209-225): run
`check_channel_status`; if it raises, catch the exception and produce the
error-status outcome dict `{status: 'error', message: str(e), error:
str(e)}`.  The semaphore and the 1-unit inter-request sleep only pace the
run; they do not affect the value computed for a channel. -/
def check_with_semaphore (env : Env) (now : Nat) (c : Channel)
    (db : List Channel) : Outcome × List Channel :=
  let run := check_channel_status c.id (env.upOf c.id) now (env.pb c.id) db
  match run.result with
  | .ok o => (o, run.db)
  | .error e =>
    ({ channel_id := c.id, is_online := false, status := .error,
       message := e, last_checked := now, error := some e }, run.db)

/-- One batch of `check_multiple_channels`: `asyncio.gather` over the batch's
tasks returns their results in task order, and with `check_with_semaphore`
never raising (and cancellation out of scope) every task yields an outcome,
so the batch contributes one outcome per channel, in order.  Writes of
probes of distinct channels touch distinct rows; the db is threaded in the
canonical (input-order) linearization. -/
def runBatchSeq (env : Env) (now : Nat) :
    List Channel → List Channel → List Outcome × List Channel
  | [], db => ([], db)
  | c :: cs, db =>
    let p := check_with_semaphore env now c db
    let q := runBatchSeq env now cs p.2
    (p.1 :: q.1, q.2)

/-- The batching loop of `check_multiple_channels` (lines 227-255):
`for i in range(0, len(channels), batch_size)` with `batch_size = 10`,
collecting each batch's results into `all_results` (the 2-unit inter-batch
sleep only paces the run). -/
def check_multiple_batches (env : Env) (now : Nat) :
    List Channel → List Channel → List Outcome × List Channel
  | [], db => ([], db)
  | c :: cs, db =>
    let p := runBatchSeq env now ((c :: cs).take 10) db
    let q := check_multiple_batches env now ((c :: cs).drop 10) p.2
    (p.1 ++ q.1, q.2)
termination_by l _ => l.length
decreasing_by simp; omega

/-- Model of `ChannelStatusService.check_multiple_channels(channels, concurrency)`
(lines 192-255).  The `concurrency` argument sizes the semaphore, which
bounds in-flight requests but does not change any computed outcome, so the
result is independent of it. -/
def check_multiple_channels (channels : List Channel) (concurrency : Nat)
    (env : Env) (now : Nat) (db : List Channel) : List Outcome × List Channel :=
  let _ := concurrency
  check_multiple_batches env now channels db

/-- Model of `ChannelRepository.get_channels(skip, limit, active_only)` (the `search`
filter is never passed by the probing subsystem): optionally restrict to rows
whose `is_active` column equals SQL TRUE, then apply offset and limit. -/
def get_channels (db : List Channel) (skip limit : Nat) (active_only : Bool) :
    List Channel :=
  (((if active_only then db.filter (fun c => c.is_active == some true) else db).drop skip).take limit)

/-- Model of `datetime.utcnow().replace(hour=0, minute=0, second=0, microsecond=0)`,
with time counted in minutes: the start of the current UTC calendar day. -/
def dayStart (now : Nat) : Nat :=
  (now / 1440) * 1440

/-- Rounding of a rational to the nearest integer with ties to even —
Python's `round` on exactly representable values. -/
def halfEvenRound (q : ℚ) : ℤ :=
  let f := Int.floor q
  let r := q - (f : ℚ)
  if r < 1 / 2 then f
  else if 1 / 2 < r then f + 1
  else if f % 2 = 0 then f else f + 1

/-- Python `round(q, 1)`. -/
def pyRound1 (q : ℚ) : ℚ :=
  (halfEvenRound (q * 10) : ℚ) / 10

/-- The summary dict built by
`ChannelStatusService.get_channel_status_summary`, including the duplicated
compatibility fields. -/
structure StatusSummary where
  total_channels : Nat
  active_channels : Nat
  online : Nat
  online_channels : Nat
  offline : Nat
  offline_channels : Nat
  unknown : Nat
  recent_checks : Nat
  last_checked_channels : Nat
  online_percentage : ℚ
  checked_percentage : ℚ
deriving DecidableEq, Repr

/-- Model of `ChannelStatusService.get_channel_status_summary` (lines 257-291).
It reads `self.channel_repository.get_channels(limit=10000)` — note that
`get_channels`'s `active_only` parameter defaults to `True`, so the scan
covers only the first 10000 channels whose `is_active` column is TRUE — and
counts online / offline / unknown / active rows, rows last checked on or
after the start of the current UTC day, and the two percentages rounded to
one decimal (0 when the scanned set is empty). -/
def get_channel_status_summary (db : List Channel) (now : Nat) : StatusSummary :=
  let channels := get_channels db 0 10000 true
  let total := channels.length
  let online := (channels.filter (fun c => c.is_online == some true)).length
  let offline := (channels.filter (fun c => c.is_online == some false)).length
  let unknown := (channels.filter (fun c => c.is_online == none)).length
  let active_channels := (channels.filter (fun c => c.is_active == some true)).length
  let recent_threshold := dayStart now
  let recent_checks := (channels.filter (fun c =>
    match c.last_checked with
    | some t => decide (recent_threshold ≤ t)
    | none => false)).length
  { total_channels := total,
    active_channels := active_channels,
    online := online, online_channels := online,
    offline := offline, offline_channels := offline,
    unknown := unknown,
    recent_checks := recent_checks, last_checked_channels := recent_checks,
    online_percentage :=
      pyRound1 (if 0 < total then (online : ℚ) / (total : ℚ) * 100 else 0),
    checked_percentage :=
      pyRound1 (if 0 < total then (recent_checks : ℚ) / (total : ℚ) * 100 else 0) }

/-- A FastAPI `HTTPException`. -/
structure HTTPError where
  status_code : Nat
  detail : String
deriving DecidableEq, Repr

/-- Model of `schemas/channel_status.py::StatusCheckRequest` (`channel_ids:
Optional[List[str]] = None`, `concurrency: Optional[int] = 3`; the
concurrency value is modelled as the integer it carries). -/
structure StatusCheckRequest where
  channel_ids : Option (List String)
  concurrency : Nat
deriving DecidableEq, Repr

/-- Model of `schemas/channel_status.py::BulkStatusCheckResponse` plus the `message`
and `background` keys the endpoint adds to the dict. -/
structure BulkStatusCheckResponse where
  message : String
  background : Bool
  total_channels : Nat
  total_checked : Nat
  online_count : Nat
  offline_count : Nat
  results : List Outcome
  summary : StatusSummary
deriving Repr

/-- Channel selection of `check_all_channels_status` (endpoint lines
103-111): if a request object was posted and its `channel_ids` is truthy
(neither `None` nor `[]`), resolve each id via the service, silently
skipping unresolvable ids; otherwise take
`service.get_all_channels(active_only=True)`, whose `skip`/`limit`
parameters default to 0/100. -/
def resolve_channels (db : List Channel) (request : Option StatusCheckRequest) :
    List Channel :=
  match request with
  | some req =>
    match req.channel_ids with
    | some ids =>
      if !ids.isEmpty then ids.filterMap (get_channel_by_id db)
      else get_channels db 0 100 true
    | none => get_channels db 0 100 true
  | none => get_channels db 0 100 true

/-- The `limit` query parameter of `check_all_channels_status` (lines
116-118): `if limit: channels = channels[:limit]` — note 0 is falsy, so a
zero limit is not applied. -/
def apply_limit (channels : List Channel) (limit : Option Nat) : List Channel :=
  match limit with
  | some l => if l ≠ 0 then channels.take l else channels
  | none => channels

/-- Model of `POST /channels/check_status_all` (`check_all_channels_status`, endpoint
lines 90-161): resolve the channels to check; 404 if none; apply the limit;
if more than 20 channels remain, schedule `_background_status_check` (which
runs only after the response is sent, so the returned db is unchanged) and
answer with zero counts, no results, the real channel total and a summary of
the still-unprobed state; otherwise probe inline, recompute the summary from
the post-probe db, and count online/offline outcomes by their `is_online`
flag. -/
def check_all_channels_status (db : List Channel) (env : Env) (now : Nat)
    (request : Option StatusCheckRequest) (limit : Option Nat) :
    Except HTTPError BulkStatusCheckResponse × List Channel :=
  let channels0 := resolve_channels db request
  if channels0.isEmpty then
    (.error ⟨404, "No channels found to check"⟩, db)
  else
    let channels := apply_limit channels0 limit
    let concurrency := match request with | some req => req.concurrency | none => 3
    if channels.length > 20 then
      (.ok { message := "Status check started in background for "
               ++ toString channels.length
               ++ " channels. This will finish when it finishes.",
             background := true,
             total_channels := channels.length,
             total_checked := 0,
             online_count := 0,
             offline_count := 0,
             results := [],
             summary := get_channel_status_summary db now }, db)
    else
      let pr := check_multiple_channels channels concurrency env now db
      let summary := get_channel_status_summary pr.2 now
      let online_count := (pr.1.filter (fun r => r.is_online)).length
      let offline_count := (pr.1.filter (fun r => !r.is_online)).length
      (.ok { message := "Status check completed for " ++ toString channels.length
               ++ " channels.",
             background := false,
             total_channels := channels.length,
             total_checked := pr.1.length,
             online_count := online_count,
             offline_count := offline_count,
             results := pr.1,
             summary := summary }, pr.2)

/-- Model of the endpoint `POST /channels/.../check_status` (`check_acestream_channel_status`,
endpoint lines 189-201): resolve the id; if no channel matches, raise
`HTTPException(404, "Acestream channel not found")` without contacting the
engine or the status recorder; otherwise run one probe (an exception
escaping the probe would surface as a 500). Returns the HTTP-level result,
the persistence calls attempted, and the database afterwards. -/
def check_acestream_channel_status (db : List Channel) (env : Env) (now : Nat)
    (cid : String) :
    Except HTTPError Outcome × List PersistCall × List Channel :=
  match get_channel_by_id db cid with
  | none => (.error ⟨404, "Acestream channel not found"⟩, [], db)
  | some ch =>
    let run := check_channel_status ch.id (env.upOf ch.id) now (env.pb ch.id) db
    match run.result with
    | .ok o => (.ok o, run.calls, run.db)
    | .error e => (.error ⟨500, e⟩, run.calls, run.db)

/-! Section: Shape lemmas: every value returned by `check_channel_status` is one of
the two outcome-dict shapes built in the source. -/

theorem outerHandler_shape (cid e : String) (now : Nat) (pb : Nat → Option String)
    (n : Nat) (calls : List PersistCall) (db : List Channel) (o : Outcome)
    (h : (outerHandler cid e now pb n calls db).result = .ok o) :
    o = mkOffline cid e now := by
  unfold outerHandler at h
  rcases hp : pb n with _ | e2 <;> simp [hp] at h
  exact h.symm

theorem timeoutHandler_shape (cid : String) (now : Nat) (pb : Nat → Option String)
    (n : Nat) (calls : List PersistCall) (db : List Channel) (o : Outcome)
    (h : (timeoutHandler cid now pb n calls db).result = .ok o) :
    o = mkOffline cid "Request timeout" now := by
  unfold timeoutHandler at h
  rcases hp : pb n with _ | e2 <;> simp [hp] at h
  exact h.symm

theorem innerHandler_shape (cid e : String) (now : Nat) (pb : Nat → Option String)
    (n : Nat) (calls : List PersistCall) (db : List Channel) (o : Outcome)
    (h : (innerHandler cid e now pb n calls db).result = .ok o) :
    ∃ msg, o = mkOffline cid msg now := by
  unfold innerHandler at h
  rcases hp : pb n with _ | e2 <;> simp [hp] at h
  · exact ⟨_, h.symm⟩
  · exact ⟨_, outerHandler_shape _ _ _ _ _ _ _ _ h⟩

theorem onlineBranch_shape (cid msg : String) (now : Nat) (pb : Nat → Option String)
    (db : List Channel) (o : Outcome)
    (h : (onlineBranch cid msg now pb db).result = .ok o) :
    o = mkOnline cid msg now ∨ ∃ m, o = mkOffline cid m now := by
  unfold onlineBranch at h
  rcases hp : pb 0 with _ | e2 <;> simp [hp] at h
  · exact .inl h.symm
  · exact .inr (innerHandler_shape _ _ _ _ _ _ _ _ h)

theorem offlineBranch_shape (cid : String) (error : Json) (now : Nat)
    (pb : Nat → Option String) (db : List Channel) (o : Outcome)
    (h : (offlineBranch cid error now pb db).result = .ok o) :
    ∃ m, o = mkOffline cid m now := by
  unfold offlineBranch at h
  rcases hp : pb 0 with _ | e2 <;> simp [hp] at h
  · exact ⟨_, h.symm⟩
  · exact innerHandler_shape _ _ _ _ _ _ _ _ h

theorem invalidFormatBranch_shape (cid : String) (now : Nat)
    (pb : Nat → Option String) (db : List Channel) (o : Outcome)
    (h : (invalidFormatBranch cid now pb db).result = .ok o) :
    ∃ m, o = mkOffline cid m now := by
  unfold invalidFormatBranch at h
  rcases hp : pb 0 with _ | e2 <;> simp [hp] at h
  · exact ⟨_, h.symm⟩
  · exact innerHandler_shape _ _ _ _ _ _ _ _ h

theorem httpErrorBranch_shape (cid : String) (status : Nat) (now : Nat)
    (pb : Nat → Option String) (db : List Channel) (o : Outcome)
    (h : (httpErrorBranch cid status now pb db).result = .ok o) :
    ∃ m, o = mkOffline cid m now := by
  unfold httpErrorBranch at h
  rcases hp : pb 0 with _ | e2 <;> simp [hp] at h
  · exact ⟨_, h.symm⟩
  · exact ⟨_, outerHandler_shape _ _ _ _ _ _ _ _ h⟩

theorem check_channel_status_shape (cid : String) (up : Upstream) (now : Nat)
    (pb : Nat → Option String) (db : List Channel) (o : Outcome)
    (h : (check_channel_status cid up now pb db).result = .ok o) :
    (∃ msg, o = mkOnline cid msg now) ∨ (∃ msg, o = mkOffline cid msg now) := by
  cases up with
  | timeout =>
    exact .inr ⟨_, timeoutHandler_shape _ _ _ _ _ _ _ h⟩
  | transportError e =>
    exact .inr ⟨_, outerHandler_shape _ _ _ _ _ _ _ _ h⟩
  | httpResp status body =>
    simp only [check_channel_status] at h
    by_cases hs : (status == 200) = true
    · rw [if_pos hs] at h
      cases body with
      | parseFail d =>
        exact .inr (innerHandler_shape _ _ _ _ _ _ _ _ h)
      | parsed data =>
        cases data with
        | dict es =>
          simp only [] at h
          split at h
          · rcases onlineBranch_shape _ _ _ _ _ _ h with h1 | h1
            · exact .inl ⟨_, h1⟩
            · exact .inr h1
          · split at h
            · split at h
              · split at h
                · rcases onlineBranch_shape _ _ _ _ _ _ h with h1 | h1
                  · exact .inl ⟨_, h1⟩
                  · exact .inr h1
                · exact .inr (offlineBranch_shape _ _ _ _ _ _ h)
              all_goals exact .inr (innerHandler_shape _ _ _ _ _ _ _ _ h)
            · exact .inr (offlineBranch_shape _ _ _ _ _ _ h)
        | null => exact .inr (invalidFormatBranch_shape _ _ _ _ _ h)
        | bool b => exact .inr (invalidFormatBranch_shape _ _ _ _ _ h)
        | num n => exact .inr (invalidFormatBranch_shape _ _ _ _ _ h)
        | str s => exact .inr (invalidFormatBranch_shape _ _ _ _ _ h)
        | list xs => exact .inr (invalidFormatBranch_shape _ _ _ _ _ h)
    · rw [if_neg hs] at h
      exact .inr (httpErrorBranch_shape _ _ _ _ _ _ h)

/-! Section: Lemmas about the bounded batch prober. -/

/-- The wrapper always hands back an outcome carrying the probed channel's
id. -/
theorem check_with_semaphore_cid (env : Env) (now : Nat) (c : Channel)
    (db : List Channel) :
    ((check_with_semaphore env now c db).1).channel_id = c.id := by
  unfold check_with_semaphore
  rcases hr : (check_channel_status c.id (env.upOf c.id) now (env.pb c.id) db).result
    with e | o
  · simp [hr]
  · simp only [hr]
    rcases check_channel_status_shape _ _ _ _ _ _ hr with ⟨m, rfl⟩ | ⟨m, rfl⟩ <;>
      simp [mkOnline, mkOffline]

/-- Sequentially probing a list yields one outcome per channel, in order,
carrying that channel's id. -/
theorem runBatchSeq_ids (env : Env) (now : Nat) :
    ∀ (l db : List Channel),
      ((runBatchSeq env now l db).1).map (fun o => o.channel_id)
        = l.map (fun c => c.id)
  | [], _ => rfl
  | c :: cs, db => by
    unfold runBatchSeq
    simp [check_with_semaphore_cid, runBatchSeq_ids env now cs]

/-- The cons unfolding of `runBatchSeq`. -/
theorem runBatchSeq_cons (env : Env) (now : Nat) (c : Channel)
    (cs db : List Channel) :
    runBatchSeq env now (c :: cs) db =
      ((check_with_semaphore env now c db).1
          :: (runBatchSeq env now cs (check_with_semaphore env now c db).2).1,
        (runBatchSeq env now cs (check_with_semaphore env now c db).2).2) := rfl

/-- Probing a concatenation is probing the parts in sequence. -/
theorem runBatchSeq_append (env : Env) (now : Nat) :
    ∀ (l1 l2 db : List Channel),
      runBatchSeq env now (l1 ++ l2) db =
        ((runBatchSeq env now l1 db).1
            ++ (runBatchSeq env now l2 (runBatchSeq env now l1 db).2).1,
          (runBatchSeq env now l2 (runBatchSeq env now l1 db).2).2)
  | [], l2, db => by simp [runBatchSeq]
  | c :: cs, l2, db => by
    rw [List.cons_append, runBatchSeq_cons, runBatchSeq_cons,
      runBatchSeq_append env now cs l2 ((check_with_semaphore env now c db).2)]
    rfl

/-- The 10-per-batch loop computes exactly the sequential probe of the whole
list: batching only paces the run. -/
theorem check_multiple_batches_eq (env : Env) (now : Nat) :
    ∀ (l db : List Channel),
      check_multiple_batches env now l db = runBatchSeq env now l db
  | [], db => by rw [check_multiple_batches]; rfl
  | c :: cs, db => by
    rw [check_multiple_batches]
    rw [check_multiple_batches_eq env now ((c :: cs).drop 10)]
    conv_rhs => rw [show c :: cs = (c :: cs).take 10 ++ (c :: cs).drop 10 from
      (List.take_append_drop _ _).symm]
    rw [runBatchSeq_append]
termination_by l _ => l.length
decreasing_by simp; omega

/-! Section: Concrete fixtures used by witnesses. -/

/-- Persistence that always succeeds. -/
def noFail : Nat → Option String := fun _ => none

/-- An environment in which every probe times out and persistence succeeds. -/
def envTimeout : Env := ⟨fun _ => .timeout, fun _ _ => none⟩

/-- An active channel row that has never been probed. -/
def mkActiveChan (cid : String) : Channel :=
  { id := cid, name := "", is_active := some true, is_online := none,
    last_checked := none, check_error := none }

/-- Two channels, for exercising the batch prober. -/
def chansAB : List Channel := [mkActiveChan "a", mkActiveChan "b"]

/-! Section: C1 -/

/-- C1: for every channel list and every positive concurrency,
`check_multiple_channels` returns exactly one outcome dict per input channel
(in the deterministic model, where no true internal fault occurs), and the
multiset — indeed the sequence — of outcome `channel_id`s equals the
sequence of input ids, so each occurrence of an id in the input is accounted
for exactly once in aggregate. -/
theorem c1_check_multiple_channels_covers (channels : List Channel) (k : Nat)
    (hk : 0 < k) (env : Env) (now : Nat) (db : List Channel) :
    ((check_multiple_channels channels k env now db).1).length = channels.length ∧
    ((check_multiple_channels channels k env now db).1).map (fun o => o.channel_id)
      = channels.map (fun c => c.id) := by
  have hmap :
      ((check_multiple_channels channels k env now db).1).map (fun o => o.channel_id)
        = channels.map (fun c => c.id) := by
    unfold check_multiple_channels
    rw [check_multiple_batches_eq]
    exact runBatchSeq_ids env now channels db
  refine ⟨?_, hmap⟩
  have hlen := congrArg List.length hmap
  simpa using hlen

/-- C1 witness: the two-channel batch at concurrency 3. -/
theorem c1_witness :
    ((check_multiple_channels chansAB 3 envTimeout 0 []).1).length = chansAB.length ∧
    ((check_multiple_channels chansAB 3 envTimeout 0 []).1).map (fun o => o.channel_id)
      = chansAB.map (fun c => c.id) :=
  c1_check_multiple_channels_covers chansAB 3 (by decide) envTimeout 0 []

/-! Section: C10 -/

/-- C10: every outcome dict that `check_channel_status` itself returns is
internally coherent: `is_online` is true iff `status` is `'online'`, the
`status` is never `'error'`, the `error` field is `None` iff `is_online` is
true, and an offline outcome's `message` equals its `error` text. -/
theorem c10_outcome_coherent (cid : String) (up : Upstream) (now : Nat)
    (pb : Nat → Option String) (db : List Channel) (o : Outcome)
    (h : (check_channel_status cid up now pb db).result = .ok o) :
    (o.is_online = true ↔ o.status = .online) ∧
    o.status ≠ .error ∧
    (o.error = none ↔ o.is_online = true) ∧
    (o.is_online = false → o.error = some o.message) := by
  rcases check_channel_status_shape _ _ _ _ _ _ h with ⟨m, rfl⟩ | ⟨m, rfl⟩ <;>
    simp [mkOnline, mkOffline]

/-- C10 witness: the coherence facts at a concrete probe (a timeout). -/
theorem c10_witness :
    ((mkOffline "a" "Request timeout" 0).is_online = true
        ↔ (mkOffline "a" "Request timeout" 0).status = .online) ∧
    (mkOffline "a" "Request timeout" 0).status ≠ .error ∧
    ((mkOffline "a" "Request timeout" 0).error = none
        ↔ (mkOffline "a" "Request timeout" 0).is_online = true) ∧
    ((mkOffline "a" "Request timeout" 0).is_online = false →
      (mkOffline "a" "Request timeout" 0).error
        = some (mkOffline "a" "Request timeout" 0).message) :=
  c10_outcome_coherent "a" .timeout 0 noFail []
    (mkOffline "a" "Request timeout" 0) (by rfl)

/-! Section: C3 -/

/-- C3: whenever the parsed HTTP-200 body is a dict whose `error` entry is
truthy and whose `str(...).lower()` contains `"got newer download"`, the
probe is classified online — outcome `is_online=True`, `status='online'` —
whatever else the body contains (persistence succeeding on the first
attempt, `pb 0 = none`, so no persistence-failure cascade interferes). -/
theorem c3_newer_download_is_online (cid : String) (es : List (String × Json))
    (now : Nat) (pb : Nat → Option String) (db : List Channel)
    (htruthy : (dictGetD es "error" .null).truthy = true)
    (hsub : strContainsSub (strLower (pyStr (dictGetD es "error" .null)))
      "got newer download" = true)
    (hpb : pb 0 = none) :
    (check_channel_status cid (.httpResp 200 (.parsed (.dict es))) now pb db).result
        = .ok (mkOnline cid "Channel is available" now) ∧
    (mkOnline cid "Channel is available" now).is_online = true ∧
    (mkOnline cid "Channel is available" now).status = .online := by
  refine ⟨?_, rfl, rfl⟩
  simp only [check_channel_status]
  rw [if_pos (by decide)]
  simp only [htruthy, hsub, Bool.and_self, if_pos]
  unfold onlineBranch
  simp [hpb]

/-- C3 witness: a body carrying both an error text with the magic substring
(in mixed case) and a non-live response object is still online. -/
theorem c3_witness :
    (check_channel_status "a"
        (.httpResp 200 (.parsed (.dict
          [("error", .str "Got NEWER download in progress"),
           ("response", .dict [("is_live", .num 0)])])))
        0 noFail []).result
      = .ok (mkOnline "a" "Channel is available" 0) ∧
    (mkOnline "a" "Channel is available" 0).is_online = true ∧
    (mkOnline "a" "Channel is available" 0).status = .online :=
  c3_newer_download_is_online "a"
    [("error", .str "Got NEWER download in progress"),
     ("response", .dict [("is_live", .num 0)])]
    0 noFail [] (by decide)
    (show strContainsSub (strLower (pyStr (Json.str "Got NEWER download in progress")))
        "got newer download" = true from by
      simp only [pyStr]
      decide)
    (by rfl)

/-! Section: C4 -/

/-- The spec's scenario environment: channel `a` answers live, channel `b`
times out, channel `c` gets HTTP 500; persistence succeeds. -/
def envScenario : Env :=
  ⟨fun cid =>
    if cid = "a" then
      .httpResp 200 (.parsed (.dict [("response", .dict [("is_live", .num 1)])]))
    else if cid = "b" then .timeout
    else .httpResp 500 (.parsed .null),
   fun _ _ => none⟩

/-- The scenario batch. -/
def chansABC : List Channel :=
  [mkActiveChan "a", mkActiveChan "b", mkActiveChan "c"]

/-- C4 counterexample: at a concrete timeout probe the outcome's `status` is
`'offline'`, not the `'error'` member the claim requires
(`check_channel_status`'s timeout handler builds `'status': 'offline'`). -/
theorem c4_counterexample :
    (check_channel_status "b" .timeout 0 noFail []).result
        = .ok (mkOffline "b" "Request timeout" 0) ∧
    (mkOffline "b" "Request timeout" 0).status = .offline ∧
    StatusTag.offline ≠ StatusTag.error :=
  ⟨rfl, rfl, by decide⟩

/-- C4 amended: a probe ending in a transport or timeout failure returns an
outcome with `status='offline'` (not `'error'`), `is_online=False`, and
`message` equal to `"Request timeout"` (timeout) or the transport error text
(persistence succeeding, `pb 0 = none`); and in the spec's batch scenario —
`a` live, `b` timeout, `c` HTTP 500, concurrency 1 — both `b` and `c` yield
offline-status outcomes, with one online and two non-online outcomes in
total. -/
theorem c4_amended_transport_offline (cid m : String) (now : Nat)
    (pb : Nat → Option String) (db : List Channel) (hpb : pb 0 = none) :
    (check_channel_status cid .timeout now pb db).result
        = .ok (mkOffline cid "Request timeout" now) ∧
    (check_channel_status cid (.transportError m) now pb db).result
        = .ok (mkOffline cid m now) ∧
    (mkOffline cid "Request timeout" now).status = .offline ∧
    (mkOffline cid "Request timeout" now).is_online = false ∧
    (mkOffline cid m now).status = .offline ∧
    (mkOffline cid m now).is_online = false ∧
    ((check_multiple_channels chansABC 1 envScenario 0 []).1).map
        (fun o => (o.channel_id, o.status, o.message))
      = [("a", .online, "Channel is live"),
         ("b", .offline, "Request timeout"),
         ("c", .offline, "HTTP 500")] ∧
    (((check_multiple_channels chansABC 1 envScenario 0 []).1).filter
        (fun o => o.is_online)).length = 1 ∧
    (((check_multiple_channels chansABC 1 envScenario 0 []).1).filter
        (fun o => !o.is_online)).length = 2 := by
  refine ⟨?_, ?_, rfl, rfl, rfl, rfl, ?_, ?_, ?_⟩
  · unfold check_channel_status timeoutHandler
    simp [hpb]
  · unfold check_channel_status outerHandler
    simp [hpb]
  all_goals
    unfold check_multiple_channels
    rw [check_multiple_batches_eq]
    decide

/-- C4 amended witness: the timeout and transport parts at a concrete probe
with succeeding persistence. -/
theorem c4_witness :
    (check_channel_status "w4" .timeout 5 noFail []).result
        = .ok (mkOffline "w4" "Request timeout" 5) ∧
    (check_channel_status "w4" (.transportError "boom") 5 noFail []).result
        = .ok (mkOffline "w4" "boom" 5) ∧
    (mkOffline "w4" "Request timeout" 5).status = .offline ∧
    (mkOffline "w4" "Request timeout" 5).is_online = false ∧
    (mkOffline "w4" "boom" 5).status = .offline ∧
    (mkOffline "w4" "boom" 5).is_online = false ∧
    ((check_multiple_channels chansABC 1 envScenario 0 []).1).map
        (fun o => (o.channel_id, o.status, o.message))
      = [("a", .online, "Channel is live"),
         ("b", .offline, "Request timeout"),
         ("c", .offline, "HTTP 500")] ∧
    (((check_multiple_channels chansABC 1 envScenario 0 []).1).filter
        (fun o => o.is_online)).length = 1 ∧
    (((check_multiple_channels chansABC 1 envScenario 0 []).1).filter
        (fun o => !o.is_online)).length = 2 :=
  c4_amended_transport_offline "w4" "boom" 5 noFail [] (by rfl)

/-! Section: C5 -/

theorem outerHandler_calls_ne (cid e : String) (now : Nat) (pb : Nat → Option String)
    (n : Nat) (calls : List PersistCall) (db : List Channel) :
    (outerHandler cid e now pb n calls db).calls ≠ [] := by
  unfold outerHandler
  rcases hp : pb n with _ | e2 <;> simp [hp]

theorem timeoutHandler_calls_ne (cid : String) (now : Nat) (pb : Nat → Option String)
    (n : Nat) (calls : List PersistCall) (db : List Channel) :
    (timeoutHandler cid now pb n calls db).calls ≠ [] := by
  unfold timeoutHandler
  rcases hp : pb n with _ | e2 <;> simp [hp]

theorem innerHandler_calls_ne (cid e : String) (now : Nat) (pb : Nat → Option String)
    (n : Nat) (calls : List PersistCall) (db : List Channel) :
    (innerHandler cid e now pb n calls db).calls ≠ [] := by
  unfold innerHandler
  rcases hp : pb n with _ | e2 <;> simp [hp]
  exact outerHandler_calls_ne _ _ _ _ _ _ _

theorem onlineBranch_calls_ne (cid msg : String) (now : Nat)
    (pb : Nat → Option String) (db : List Channel) :
    (onlineBranch cid msg now pb db).calls ≠ [] := by
  unfold onlineBranch
  rcases hp : pb 0 with _ | e2 <;> simp [hp]
  exact innerHandler_calls_ne _ _ _ _ _ _ _

theorem offlineBranch_calls_ne (cid : String) (error : Json) (now : Nat)
    (pb : Nat → Option String) (db : List Channel) :
    (offlineBranch cid error now pb db).calls ≠ [] := by
  unfold offlineBranch
  rcases hp : pb 0 with _ | e2 <;> simp [hp]
  exact innerHandler_calls_ne _ _ _ _ _ _ _

theorem invalidFormatBranch_calls_ne (cid : String) (now : Nat)
    (pb : Nat → Option String) (db : List Channel) :
    (invalidFormatBranch cid now pb db).calls ≠ [] := by
  unfold invalidFormatBranch
  rcases hp : pb 0 with _ | e2 <;> simp [hp]
  exact innerHandler_calls_ne _ _ _ _ _ _ _

theorem httpErrorBranch_calls_ne (cid : String) (status : Nat) (now : Nat)
    (pb : Nat → Option String) (db : List Channel) :
    (httpErrorBranch cid status now pb db).calls ≠ [] := by
  unfold httpErrorBranch
  rcases hp : pb 0 with _ | e2 <;> simp [hp]
  exact outerHandler_calls_ne _ _ _ _ _ _ _

/-- Every path through `check_channel_status` attempts at least one
persistence call. -/
theorem check_channel_status_calls_ne (cid : String) (up : Upstream) (now : Nat)
    (pb : Nat → Option String) (db : List Channel) :
    (check_channel_status cid up now pb db).calls ≠ [] := by
  cases up with
  | timeout => exact timeoutHandler_calls_ne _ _ _ _ _ _
  | transportError e => exact outerHandler_calls_ne _ _ _ _ _ _ _
  | httpResp status body =>
    simp only [check_channel_status]
    by_cases hs : (status == 200) = true
    · rw [if_pos hs]
      cases body with
      | parseFail d => exact innerHandler_calls_ne _ _ _ _ _ _ _
      | parsed data =>
        cases data with
        | dict es =>
          simp only []
          split
          · exact onlineBranch_calls_ne _ _ _ _ _
          · split
            · split
              · split
                · exact onlineBranch_calls_ne _ _ _ _ _
                · exact offlineBranch_calls_ne _ _ _ _ _
              all_goals exact innerHandler_calls_ne _ _ _ _ _ _ _
            · exact offlineBranch_calls_ne _ _ _ _ _
        | null => exact invalidFormatBranch_calls_ne _ _ _ _
        | bool b => exact invalidFormatBranch_calls_ne _ _ _ _
        | num n => exact invalidFormatBranch_calls_ne _ _ _ _
        | str s => exact invalidFormatBranch_calls_ne _ _ _ _
        | list xs => exact invalidFormatBranch_calls_ne _ _ _ _
    · rw [if_neg hs]
      exact httpErrorBranch_calls_ne _ _ _ _ _

theorem outerHandler_ok (cid e : String) (now : Nat) (pb : Nat → Option String)
    (n : Nat) (calls : List PersistCall) (db : List Channel) (hp : pb n = none) :
    ∃ o, (outerHandler cid e now pb n calls db).result = .ok o := by
  unfold outerHandler
  simp [hp]

theorem timeoutHandler_ok (cid : String) (now : Nat) (pb : Nat → Option String)
    (n : Nat) (calls : List PersistCall) (db : List Channel) (hp : pb n = none) :
    ∃ o, (timeoutHandler cid now pb n calls db).result = .ok o := by
  unfold timeoutHandler
  simp [hp]

theorem innerHandler_ok (cid e : String) (now : Nat) (pb : Nat → Option String)
    (n : Nat) (calls : List PersistCall) (db : List Channel)
    (hp : pb n = none ∨ pb (n + 1) = none) :
    ∃ o, (innerHandler cid e now pb n calls db).result = .ok o := by
  unfold innerHandler
  rcases hq : pb n with _ | e2
  · simp [hq]
  · rcases hp with hp | hp
    · rw [hp] at hq; cases hq
    · simp only [hq]
      exact outerHandler_ok _ _ _ _ _ _ _ hp

theorem onlineBranch_ok (cid msg : String) (now : Nat) (pb : Nat → Option String)
    (db : List Channel) (hp : pb 0 = none ∨ pb 1 = none) :
    ∃ o, (onlineBranch cid msg now pb db).result = .ok o := by
  unfold onlineBranch
  rcases hq : pb 0 with _ | e2
  · simp [hq]
  · rcases hp with hp | hp
    · rw [hp] at hq; cases hq
    · simp only [hq]
      exact innerHandler_ok _ _ _ _ _ _ _ (.inl hp)

theorem offlineBranch_ok (cid : String) (error : Json) (now : Nat)
    (pb : Nat → Option String) (db : List Channel)
    (hp : pb 0 = none ∨ pb 1 = none) :
    ∃ o, (offlineBranch cid error now pb db).result = .ok o := by
  unfold offlineBranch
  rcases hq : pb 0 with _ | e2
  · simp [hq]
  · rcases hp with hp | hp
    · rw [hp] at hq; cases hq
    · simp only [hq]
      exact innerHandler_ok _ _ _ _ _ _ _ (.inl hp)

theorem invalidFormatBranch_ok (cid : String) (now : Nat)
    (pb : Nat → Option String) (db : List Channel)
    (hp : pb 0 = none ∨ pb 1 = none) :
    ∃ o, (invalidFormatBranch cid now pb db).result = .ok o := by
  unfold invalidFormatBranch
  rcases hq : pb 0 with _ | e2
  · simp [hq]
  · rcases hp with hp | hp
    · rw [hp] at hq; cases hq
    · simp only [hq]
      exact innerHandler_ok _ _ _ _ _ _ _ (.inl hp)

theorem httpErrorBranch_ok (cid : String) (status : Nat) (now : Nat)
    (pb : Nat → Option String) (db : List Channel)
    (hp : pb 0 = none ∨ pb 1 = none) :
    ∃ o, (httpErrorBranch cid status now pb db).result = .ok o := by
  unfold httpErrorBranch
  rcases hq : pb 0 with _ | e2
  · simp [hq]
  · rcases hp with hp | hp
    · rw [hp] at hq; cases hq
    · simp only [hq]
      exact outerHandler_ok _ _ _ _ _ _ _ hp

/-- Any HTTP-response path returns an outcome dict provided the first or the
second persistence attempt succeeds (the cascade retries the write at most
once before the outer handler's own write). -/
theorem check_channel_status_http_ok (cid : String) (s : Nat) (b : BodyParse)
    (now : Nat) (pb : Nat → Option String) (db : List Channel)
    (hp : pb 0 = none ∨ pb 1 = none) :
    ∃ o, (check_channel_status cid (.httpResp s b) now pb db).result = .ok o := by
  simp only [check_channel_status]
  by_cases hs : (s == 200) = true
  · rw [if_pos hs]
    cases b with
    | parseFail d => exact innerHandler_ok _ _ _ _ _ _ _ hp
    | parsed data =>
      cases data with
      | dict es =>
        simp only []
        split
        · exact onlineBranch_ok _ _ _ _ _ hp
        · split
          · split
            · split
              · exact onlineBranch_ok _ _ _ _ _ hp
              · exact offlineBranch_ok _ _ _ _ _ hp
            all_goals exact innerHandler_ok _ _ _ _ _ _ _ hp
          · exact offlineBranch_ok _ _ _ _ _ hp
      | null => exact invalidFormatBranch_ok _ _ _ _ hp
      | bool bb => exact invalidFormatBranch_ok _ _ _ _ hp
      | num n => exact invalidFormatBranch_ok _ _ _ _ hp
      | str st => exact invalidFormatBranch_ok _ _ _ _ hp
      | list xs => exact invalidFormatBranch_ok _ _ _ _ hp
  · rw [if_neg hs]
    exact httpErrorBranch_ok _ _ _ _ _ hp

/-- With always-succeeding persistence, every path of `check_channel_status`
returns an outcome dict. -/
theorem check_channel_status_noFail_ok (cid : String) (up : Upstream)
    (now : Nat) (db : List Channel) :
    ∃ o, (check_channel_status cid up now noFail db).result = .ok o := by
  cases up with
  | timeout => exact timeoutHandler_ok _ _ _ _ _ _ rfl
  | transportError e => exact outerHandler_ok _ _ _ _ _ _ _ rfl
  | httpResp s b => exact check_channel_status_http_ok cid s b now noFail db (.inl rfl)

/-- C5 counterexample: with the upstream timing out and the repository's
status write raising, the exception escapes `check_channel_status` — the
probe does not return its outcome dict, contradicting "never raised to the
caller". -/
theorem c5_counterexample :
    (check_channel_status "ch1" .timeout 0 (fun _ => some "db write failed") []).result
      = .error "db write failed" := rfl

/-- C5 amended: `check_channel_status` attempts the status-persistence call
on every outcome path, and when persistence succeeds the probe returns an
outcome dict; a persistence failure while handling an HTTP response is
swallowed (the probe still returns an outcome dict — the error-handling
cascade returns a fallback offline outcome instead of raising), but a
persistence failure inside the timeout or transport-error handlers
propagates to the caller. -/
theorem c5_persistence (cid : String) (up : Upstream) (now : Nat)
    (pb : Nat → Option String) (db : List Channel) :
    (check_channel_status cid up now pb db).calls ≠ [] ∧
    (∃ o, (check_channel_status cid up now noFail db).result = .ok o) ∧
    (∀ s b, (pb 0 = none ∨ pb 1 = none) →
      ∃ o, (check_channel_status cid (.httpResp s b) now pb db).result = .ok o) ∧
    (∀ e, pb 0 = some e →
      (check_channel_status cid .timeout now pb db).result = .error e ∧
      ∀ m, (check_channel_status cid (.transportError m) now pb db).result = .error e) := by
  refine ⟨check_channel_status_calls_ne _ _ _ _ _, ?_, ?_, ?_⟩
  · exact check_channel_status_noFail_ok cid up now db
  · intro s b hp
    exact check_channel_status_http_ok cid s b now pb db hp
  · intro e hp
    constructor
    · unfold check_channel_status timeoutHandler
      simp [hp]
    · intro m
      unfold check_channel_status outerHandler
      simp [hp]

/-- Persistence that fails on the first attempt and succeeds afterwards. -/
def pbFailFirst : Nat → Option String :=
  fun n => if n = 0 then some "db down" else none

/-- C5 witness: at concrete probes, the persistence attempt is made, the
probe answers when persistence works, a first-write failure during an HTTP
response is swallowed, and a write failure in the timeout handler escapes. -/
theorem c5_witness :
    (check_channel_status "w5" .timeout 3 pbFailFirst []).calls ≠ [] ∧
    (∃ o, (check_channel_status "w5" .timeout 3 noFail []).result = .ok o) ∧
    (∃ o, (check_channel_status "w5" (.httpResp 200 (.parsed .null)) 3 pbFailFirst []).result
      = .ok o) ∧
    (check_channel_status "w5" .timeout 3 pbFailFirst []).result = .error "db down" := by
  have h := c5_persistence "w5" .timeout 3 pbFailFirst []
  exact ⟨h.1, h.2.1, h.2.2.1 200 (.parsed .null) (.inr rfl),
    (h.2.2.2 "db down" rfl).1⟩

/-! Section: C8 -/

/-- C8: probing an id that no channel row matches makes the endpoint raise
the 404 "Acestream channel not found" error before any probe or persistence
activity: no persistence call is attempted and the database is unchanged. -/
theorem c8_not_found (db : List Channel) (env : Env) (now : Nat) (cid : String)
    (h : get_channel_by_id db cid = none) :
    check_acestream_channel_status db env now cid
      = (.error ⟨404, "Acestream channel not found"⟩, [], db) := by
  unfold check_acestream_channel_status
  rw [h]

/-- C8 witness: an unknown id against a one-row database. -/
theorem c8_witness :
    check_acestream_channel_status [mkActiveChan "a"] envTimeout 0 "nope"
      = (.error ⟨404, "Acestream channel not found"⟩, [], [mkActiveChan "a"]) :=
  c8_not_found [mkActiveChan "a"] envTimeout 0 "nope" (by decide)

/-! Section: C9 -/

/-- The three `is_online` buckets partition any channel list. -/
theorem online_bucket_partition :
    ∀ l : List Channel,
      (l.filter (fun c => c.is_online == some true)).length
        + (l.filter (fun c => c.is_online == some false)).length
        + (l.filter (fun c => c.is_online == none)).length = l.length := by
  intro l
  induction l with
  | nil => rfl
  | cons c cs ih =>
    rcases h : c.is_online with _ | b
    · simp [List.filter_cons, h]
      omega
    · cases b <;> simp [List.filter_cons, h] <;> omega

/-- C9: the summary's buckets partition its scanned set —
`online + offline + unknown = total_channels` — and every reported count is
at most `total_channels`. -/
theorem c9_summary_invariants (db : List Channel) (now : Nat) :
    (get_channel_status_summary db now).online
        + (get_channel_status_summary db now).offline
        + (get_channel_status_summary db now).unknown
      = (get_channel_status_summary db now).total_channels ∧
    (get_channel_status_summary db now).active_channels
      ≤ (get_channel_status_summary db now).total_channels ∧
    (get_channel_status_summary db now).recent_checks
      ≤ (get_channel_status_summary db now).total_channels ∧
    (get_channel_status_summary db now).online
      ≤ (get_channel_status_summary db now).total_channels ∧
    (get_channel_status_summary db now).offline
      ≤ (get_channel_status_summary db now).total_channels ∧
    (get_channel_status_summary db now).unknown
      ≤ (get_channel_status_summary db now).total_channels := by
  simp only [get_channel_status_summary]
  exact ⟨online_bucket_partition _, List.length_filter_le _ _,
    List.length_filter_le _ _, List.length_filter_le _ _,
    List.length_filter_le _ _, List.length_filter_le _ _⟩

/-! Section: C2 -/

theorem apply_limit_nil (limit : Option Nat) : apply_limit [] limit = [] := by
  cases limit with
  | none => rfl
  | some l => by_cases h : l ≠ 0 <;> simp [apply_limit, h]

/-- C2: whenever more than 20 channels survive resolution and the limit,
`check_all_channels_status` probes nothing inline: it hands the batch to the
background facility and immediately answers with `total_checked = 0`, empty
`results`, zero online/offline counts, `total_channels` equal to the real
resolved count, and a summary computed from the current — pre-probe —
persisted state; the database is returned untouched. -/
theorem c2_background_dispatch (db : List Channel) (env : Env) (now : Nat)
    (request : Option StatusCheckRequest) (limit : Option Nat)
    (h : 20 < (apply_limit (resolve_channels db request) limit).length) :
    check_all_channels_status db env now request limit
      = (.ok { message := "Status check started in background for "
                 ++ toString (apply_limit (resolve_channels db request) limit).length
                 ++ " channels. This will finish when it finishes.",
               background := true,
               total_channels := (apply_limit (resolve_channels db request) limit).length,
               total_checked := 0,
               online_count := 0,
               offline_count := 0,
               results := [],
               summary := get_channel_status_summary db now }, db) := by
  have hne : (resolve_channels db request).isEmpty = false := by
    rcases hres : resolve_channels db request with _ | ⟨c, cs⟩
    · rw [hres, apply_limit_nil] at h
      simp at h
    · rfl
  simp only [check_all_channels_status, hne, Bool.false_eq_true, if_false, if_pos h]

/-- Twenty-one active channels. -/
def db21 : List Channel :=
  (List.range 21).map (fun i => mkActiveChan ("c" ++ toString i))

/-- C2 witness: with 21 resolved channels, the endpoint takes the
background-dispatch branch. -/
theorem c2_witness :
    20 < (apply_limit (resolve_channels db21 none) none).length ∧
    check_all_channels_status db21 envTimeout 0 none none
      = (.ok { message := "Status check started in background for "
                 ++ toString (apply_limit (resolve_channels db21 none) none).length
                 ++ " channels. This will finish when it finishes.",
               background := true,
               total_channels := (apply_limit (resolve_channels db21 none) none).length,
               total_checked := 0,
               online_count := 0,
               offline_count := 0,
               results := [],
               summary := get_channel_status_summary db21 0 }, db21) :=
  ⟨by decide, c2_background_dispatch db21 envTimeout 0 none none (by decide)⟩

/-! Section: C6 -/

/-- An inactive channel last checked at minute 1500. -/
def inactiveCheckedToday : Channel :=
  { id := "x", name := "", is_active := some false, is_online := some true,
    last_checked := some 1500, check_error := none }

/-- An active channel last checked at minute `t`. -/
def activeCheckedAt (t : Nat) : Channel :=
  { id := "y", name := "", is_active := some true, is_online := some true,
    last_checked := some t, check_error := none }

/-- C6 counterexample: at time 1500 (one hour past the UTC midnight at 1440)
a channel last checked at 1500 — squarely on/after the day start — is not
counted by `recent_checks`, because the summary's scan only covers rows with
`is_active` TRUE (`get_channels`'s `active_only` defaults to `True`), so the
claim's "counts exactly those channels whose last-checked timestamp is on or
after the start of the current UTC day" fails on this persisted state. -/
theorem c6_counterexample :
    (get_channel_status_summary [inactiveCheckedToday] 1500).recent_checks = 0 ∧
    (match inactiveCheckedToday.last_checked with
     | some t => decide (dayStart 1500 ≤ t)
     | none => false) = true := by
  constructor <;> decide

/-- C6 amended: among the channels the summary scans (the first 10000 rows
with `is_active` TRUE), `recent_checks` counts exactly those whose
last-checked timestamp is on or after the start of the current UTC calendar
day — a midnight boundary, not a rolling 24-hour window: at time 1500, a
scanned channel checked at minute 120 (23 hours = 1380 minutes earlier,
before the midnight at 1440, yet inside a rolling 24-hour window) is not
counted, while one checked exactly at 1440 is. -/
theorem c6_amended_day_boundary (db : List Channel) (now : Nat) :
    (get_channel_status_summary db now).recent_checks
      = ((get_channels db 0 10000 true).filter (fun c =>
          match c.last_checked with
          | some t => decide (dayStart now ≤ t)
          | none => false)).length ∧
    (get_channel_status_summary [activeCheckedAt 120] 1500).recent_checks = 0 ∧
    1500 - 120 = 1380 ∧
    120 < dayStart 1500 ∧
    1500 - 1440 ≤ 120 ∧
    (get_channel_status_summary [activeCheckedAt 1440] 1500).recent_checks = 1 :=
  ⟨rfl, by decide, by decide, by decide, by decide, by decide⟩

/-! Section: C7 -/

/-- An active channel with the given persisted online flag. -/
def mkChanO (cid : String) (o : Option Bool) : Channel :=
  { id := cid, name := "", is_active := some true, is_online := o,
    last_checked := none, check_error := none }

/-- Ten active channels: 4 online, 3 offline, 3 never probed. -/
def dbTen : List Channel :=
  [mkChanO "t1" (some true), mkChanO "t2" (some true), mkChanO "t3" (some true),
   mkChanO "t4" (some true), mkChanO "t5" (some false), mkChanO "t6" (some false),
   mkChanO "t7" (some false), mkChanO "t8" none, mkChanO "t9" none,
   mkChanO "t10" none]

/-- Unfolding of the summary's `online_percentage` field. -/
theorem summary_online_percentage (db : List Channel) (now : Nat) :
    (get_channel_status_summary db now).online_percentage
      = pyRound1 (if 0 < (get_channels db 0 10000 true).length then
          (((get_channels db 0 10000 true).filter
              (fun c => c.is_online == some true)).length : ℚ)
            / ((get_channels db 0 10000 true).length : ℚ) * 100
          else 0) := rfl

/-- C7: the summary's percentages are `online/total×100` and
`recent_checks/total×100`, rounded to one decimal, and both 0 when the
scanned set is empty; with 10 channels of which 4 are online and 3 have no
persisted flag, `online_percentage = 40.0` and `unknown = 3`. -/
theorem c7_percentages (db : List Channel) (now : Nat) :
    ((get_channel_status_summary db now).total_channels = 0 →
      (get_channel_status_summary db now).online_percentage = 0 ∧
      (get_channel_status_summary db now).checked_percentage = 0) ∧
    (0 < (get_channel_status_summary db now).total_channels →
      (get_channel_status_summary db now).online_percentage
        = pyRound1 (((get_channel_status_summary db now).online : ℚ)
            / ((get_channel_status_summary db now).total_channels : ℚ) * 100) ∧
      (get_channel_status_summary db now).checked_percentage
        = pyRound1 (((get_channel_status_summary db now).recent_checks : ℚ)
            / ((get_channel_status_summary db now).total_channels : ℚ) * 100)) ∧
    (get_channel_status_summary dbTen 0).online_percentage = 40 ∧
    (get_channel_status_summary dbTen 0).online = 4 ∧
    (get_channel_status_summary dbTen 0).unknown = 3 ∧
    (get_channel_status_summary dbTen 0).total_channels = 10 := by
  refine ⟨?_, ?_, ?_, by decide, by decide, by decide⟩
  · intro h
    simp only [get_channel_status_summary] at h ⊢
    rw [if_neg (by omega), if_neg (by omega)]
    constructor <;> (unfold pyRound1 halfEvenRound; norm_num)
  · intro h
    simp only [get_channel_status_summary] at h ⊢
    rw [if_pos h, if_pos h]
    exact ⟨rfl, rfl⟩
  · have h1 : (get_channels dbTen 0 10000 true).length = 10 := by decide
    have h2 : ((get_channels dbTen 0 10000 true).filter
        (fun c => c.is_online == some true)).length = 4 := by decide
    rw [summary_online_percentage, h1, h2]
    rw [if_pos (by omega)]
    unfold pyRound1 halfEvenRound
    norm_num

/-- C7 witness: the rounded-percentage formula at the ten-channel fixture,
and the zero case at the empty database. -/
theorem c7_witness :
    (get_channel_status_summary dbTen 0).online_percentage
        = pyRound1 (((get_channel_status_summary dbTen 0).online : ℚ)
            / ((get_channel_status_summary dbTen 0).total_channels : ℚ) * 100) ∧
    (get_channel_status_summary [] 0).online_percentage = 0 :=
  ⟨((c7_percentages dbTen 0).2.1 (by decide)).1,
   ((c7_percentages [] 0).1 (by decide)).1⟩

end AceScraper
